import Mathlib

/-!
Verification of the smart-farm broker (`server.js`): a shallow embedding of
the device-state reconciliation and fan-out core, with theorems checking the
specification's claims against the code.

Times are modelled as integers (epoch milliseconds).  JavaScript `Map`s are
modelled as insertion-ordered association lists (`Map.set` replaces in
place, appends otherwise; `Array.from(map.values())` is the second
projection in insertion order).  A parsed JSON payload is a `JVal`; an
inbound raw message is `Option JVal`, `none` standing for a payload on which
`JSON.parse` throws.
-/

namespace SmartFarm

/-- JSON value, as produced by `JSON.parse` (numbers restricted to the
integers actually used by the system). -/
inductive JVal where
  | jnull
  | jbool (b : Bool)
  | jnum (n : Int)
  | jstr (s : String)
  | jarr (xs : List JVal)
  | jobj (fields : List (String × JVal))
deriving Repr

mutual

/-- Decidable equality on JSON values, by structural recursion (so that
`decide` can evaluate it). -/
def decEqJVal : (a b : JVal) → Decidable (a = b)
  | .jnull, .jnull => isTrue rfl
  | .jnull, .jbool _ => isFalse (fun h => JVal.noConfusion h)
  | .jnull, .jnum _ => isFalse (fun h => JVal.noConfusion h)
  | .jnull, .jstr _ => isFalse (fun h => JVal.noConfusion h)
  | .jnull, .jarr _ => isFalse (fun h => JVal.noConfusion h)
  | .jnull, .jobj _ => isFalse (fun h => JVal.noConfusion h)
  | .jbool _, .jnull => isFalse (fun h => JVal.noConfusion h)
  | .jbool a, .jbool b =>
    match decEq a b with
    | isTrue h => isTrue (congrArg JVal.jbool h)
    | isFalse h => isFalse (fun hh => h (JVal.jbool.inj hh))
  | .jbool _, .jnum _ => isFalse (fun h => JVal.noConfusion h)
  | .jbool _, .jstr _ => isFalse (fun h => JVal.noConfusion h)
  | .jbool _, .jarr _ => isFalse (fun h => JVal.noConfusion h)
  | .jbool _, .jobj _ => isFalse (fun h => JVal.noConfusion h)
  | .jnum _, .jnull => isFalse (fun h => JVal.noConfusion h)
  | .jnum _, .jbool _ => isFalse (fun h => JVal.noConfusion h)
  | .jnum a, .jnum b =>
    match decEq a b with
    | isTrue h => isTrue (congrArg JVal.jnum h)
    | isFalse h => isFalse (fun hh => h (JVal.jnum.inj hh))
  | .jnum _, .jstr _ => isFalse (fun h => JVal.noConfusion h)
  | .jnum _, .jarr _ => isFalse (fun h => JVal.noConfusion h)
  | .jnum _, .jobj _ => isFalse (fun h => JVal.noConfusion h)
  | .jstr _, .jnull => isFalse (fun h => JVal.noConfusion h)
  | .jstr _, .jbool _ => isFalse (fun h => JVal.noConfusion h)
  | .jstr _, .jnum _ => isFalse (fun h => JVal.noConfusion h)
  | .jstr a, .jstr b =>
    match decEq a b with
    | isTrue h => isTrue (congrArg JVal.jstr h)
    | isFalse h => isFalse (fun hh => h (JVal.jstr.inj hh))
  | .jstr _, .jarr _ => isFalse (fun h => JVal.noConfusion h)
  | .jstr _, .jobj _ => isFalse (fun h => JVal.noConfusion h)
  | .jarr _, .jnull => isFalse (fun h => JVal.noConfusion h)
  | .jarr _, .jbool _ => isFalse (fun h => JVal.noConfusion h)
  | .jarr _, .jnum _ => isFalse (fun h => JVal.noConfusion h)
  | .jarr _, .jstr _ => isFalse (fun h => JVal.noConfusion h)
  | .jarr a, .jarr b =>
    match decEqJList a b with
    | isTrue h => isTrue (congrArg JVal.jarr h)
    | isFalse h => isFalse (fun hh => h (JVal.jarr.inj hh))
  | .jarr _, .jobj _ => isFalse (fun h => JVal.noConfusion h)
  | .jobj _, .jnull => isFalse (fun h => JVal.noConfusion h)
  | .jobj _, .jbool _ => isFalse (fun h => JVal.noConfusion h)
  | .jobj _, .jnum _ => isFalse (fun h => JVal.noConfusion h)
  | .jobj _, .jstr _ => isFalse (fun h => JVal.noConfusion h)
  | .jobj _, .jarr _ => isFalse (fun h => JVal.noConfusion h)
  | .jobj a, .jobj b =>
    match decEqJFields a b with
    | isTrue h => isTrue (congrArg JVal.jobj h)
    | isFalse h => isFalse (fun hh => h (JVal.jobj.inj hh))

/-- Decidable equality on JSON arrays. -/
def decEqJList : (a b : List JVal) → Decidable (a = b)
  | [], [] => isTrue rfl
  | [], _ :: _ => isFalse (fun h => List.noConfusion h)
  | _ :: _, [] => isFalse (fun h => List.noConfusion h)
  | a :: as, b :: bs =>
    match decEqJVal a b with
    | isFalse h => isFalse (fun hh => h (List.cons.inj hh).1)
    | isTrue h₁ =>
      match decEqJList as bs with
      | isTrue h₂ => isTrue (by rw [h₁, h₂])
      | isFalse h₂ => isFalse (fun hh => h₂ (List.cons.inj hh).2)

/-- Decidable equality on JSON object field lists. -/
def decEqJFields : (a b : List (String × JVal)) → Decidable (a = b)
  | [], [] => isTrue rfl
  | [], _ :: _ => isFalse (fun h => List.noConfusion h)
  | _ :: _, [] => isFalse (fun h => List.noConfusion h)
  | (k₁, v₁) :: as, (k₂, v₂) :: bs =>
    if hk : k₁ = k₂ then
      match decEqJVal v₁ v₂ with
      | isFalse h => isFalse (fun hh => h (congrArg Prod.snd (List.cons.inj hh).1))
      | isTrue hv =>
        match decEqJFields as bs with
        | isTrue ht => isTrue (by rw [hk, hv, ht])
        | isFalse ht => isFalse (fun hh => ht (List.cons.inj hh).2)
    else isFalse (fun hh => hk (congrArg Prod.fst (List.cons.inj hh).1))

end

instance : DecidableEq JVal := decEqJVal


/-- A JavaScript object: insertion-ordered field list. -/
abbrev Obj := List (String × JVal)

/-- Lookup in an insertion-ordered map (`Map.prototype.get`). -/
def mapGet {κ α : Type} [DecidableEq κ] (m : List (κ × α)) (k : κ) : Option α :=
  match m with
  | [] => none
  | (k₁, v) :: rest => if k₁ = k then some v else mapGet rest k

/-- Update in an insertion-ordered map (`Map.prototype.set`): replaces in
place when the key exists, appends otherwise.  The same operation models a
spread-override `{...o, k: v}` on a JavaScript object. -/
def mapSet {κ α : Type} [DecidableEq κ] (m : List (κ × α)) (k : κ) (v : α) :
    List (κ × α) :=
  match m with
  | [] => [(k, v)]
  | (k₁, v₁) :: rest => if k₁ = k then (k, v) :: rest else (k₁, v₁) :: mapSet rest k v

/-- Deletion from an insertion-ordered map (`Map.prototype.delete`). -/
def mapRemove {κ α : Type} [DecidableEq κ] (m : List (κ × α)) (k : κ) :
    List (κ × α) :=
  m.filter (fun p => ¬ p.1 = k)

/-- Field access on an object. -/
def objGet (o : Obj) (k : String) : Option JVal := mapGet o k

/-- Spread-override `{...o, k: v}` on an object. -/
def objSet (o : Obj) (k : String) (v : JVal) : Obj := mapSet o k v

/-- What `{...v}` spreads a JavaScript value into: objects give their own
fields, strings and arrays give index-keyed entries, primitives give
nothing. -/
def toSpread : JVal → Obj
  | .jobj fields => fields
  | .jstr s => (s.toList.enum).map (fun p => (toString p.1, JVal.jstr (String.mk [p.2])))
  | .jarr xs => (xs.enum).map (fun p => (toString p.1, p.2))
  | _ => []

/-- JavaScript falsiness of `v` where `none` stands for `undefined`. -/
def jsFalsy : Option JVal → Bool
  | none => true
  | some .jnull => true
  | some (.jbool b) => !b
  | some (.jnum n) => n == 0
  | some (.jstr s) => s == ""
  | some (.jarr _) => false
  | some (.jobj _) => false

/-- `Array.isArray`. -/
def isArr : Option JVal → Bool
  | some (.jarr _) => true
  | _ => false

/-- Property access `(msg || \x7b\x7d).k`: `none` models both an absent
property and a non-object receiver (whose named properties are
`undefined`). -/
def jsProp (m : Option JVal) (k : String) : Option JVal :=
  match m with
  | some (.jobj fields) => mapGet fields k
  | _ => none

mutual

/-- String coercion of a value in a template literal. -/
def jvalToStr : JVal → String
  | .jnull => "null"
  | .jbool true => "true"
  | .jbool false => "false"
  | .jnum n => toString n
  | .jstr s => s
  | .jarr xs => jarrToStr xs
  | .jobj _ => "[object Object]"

/-- String coercion of an array: comma-joined elements. -/
def jarrToStr : List JVal → String
  | [] => ""
  | [x] => jvalToStr x
  | x :: y :: rest => jvalToStr x ++ "," ++ jarrToStr (y :: rest)

end

/-- The semantics of `s.split('/')` on the character list of `s`. -/
def jsSplitSlash : List Char → List String
  | [] => [""]
  | c :: rest =>
    if c = '/' then "" :: jsSplitSlash rest
    else
      match jsSplitSlash rest with
      | [] => [String.mk [c]]
      | g :: gs => String.mk (c :: g.data) :: gs

/-- Events emitted on the Socket.IO side: `io.emit` broadcasts and the
per-socket snapshot emits. -/
inductive Ev where
  | sensorData (payload : Obj)
  | deviceStatus (deviceId : String) (online : Bool) (serverTs : Int)
  | sensorSnapshot (devices : List Obj)
  | rulesSnapshot (entries : List Obj)
deriving DecidableEq, Repr

/-- Stored rules entry: the value of `rulesState` for one device. -/
structure RInfo where
  rules : JVal
  savedAt : Int
deriving DecidableEq, Repr

/-- The server's mutable state: `state` (deviceId → last payload),
`rulesState` (deviceId value → rules + savedAt) and `deviceTimers`
(deviceId → pending offline deadline). -/
structure Srv where
  state : List (String × Obj)
  rulesState : List (JVal × RInfo)
  timers : List (String × Int)
deriving DecidableEq, Repr

/-- Fresh server state: all three maps empty. -/
def initSrv : Srv := ⟨[], [], []⟩

/-- The `markOffline` closure: early return when the stored `online` field
is strictly `false`; otherwise overwrite the state with an offline payload,
broadcast `device:status`, and delete the device's timer entry. -/
def markOffline (s : Srv) (log : List Ev) (deviceId : String) (now : Int) :
    Srv × List Ev :=
  let existing := mapGet s.state deviceId
  let wasOnline := existing.bind (fun o => objGet o "online")
  if wasOnline = some (.jbool false) then (s, log)
  else
    let base := existing.getD [("deviceId", .jstr deviceId)]
    let offlinePayload :=
      objSet (objSet (objSet base "deviceId" (.jstr deviceId)) "online" (.jbool false))
        "serverTs" (.jnum now)
    ({ s with state := mapSet s.state deviceId offlinePayload,
              timers := mapRemove s.timers deviceId },
     log ++ [.deviceStatus deviceId false now])

/-- The `scheduleOffline` closure: clear any prior timer for the device and
arm a fresh one-shot timer due at `now + T`. -/
def scheduleOffline (timers : List (String × Int)) (deviceId : String)
    (now T : Int) : List (String × Int) :=
  mapSet timers deviceId (now + T)

/-- Device id extraction from the topic: `topic.split('/')[1] || 'unknown'`. -/
def topicDeviceId (topic : String) : String :=
  match (jsSplitSlash topic.data).get? 1 with
  | some s => if s = "" then "unknown" else s
  | none => "unknown"

/-- Enrichment of a parsed payload:
`{ ...payload, deviceId, serverTs, online: true }`. -/
def enrich (payload : JVal) (deviceId : String) (now : Int) : Obj :=
  objSet (objSet (objSet (toSpread payload) "deviceId" (.jstr deviceId))
      "serverTs" (.jnum now)) "online" (.jbool true)

/-- The MQTT `message` handler: on a parse failure (`none`) the message is
dropped (logged only); otherwise the enriched payload replaces the device's
state, `sensor:data` and `device:status` are broadcast, and the offline
timer is rescheduled. -/
def handleMessage (T : Int) (s : Srv) (log : List Ev) (topic : String)
    (msg : Option JVal) (now : Int) : Srv × List Ev :=
  match msg with
  | none => (s, log)
  | some payload =>
    let deviceId := topicDeviceId topic
    let enriched := enrich payload deviceId now
    ({ s with state := mapSet s.state deviceId enriched,
              timers := scheduleOffline s.timers deviceId now T },
     log ++ [.sensorData enriched, .deviceStatus deviceId true now])

/-- Earliest due timer under the cutoff (strictly before it when `strict`). -/
def minDue (timers : List (String × Int)) (cut : Int) (strict : Bool) :
    Option (String × Int) :=
  timers.foldl
    (fun acc p =>
      if (if strict then p.2 < cut else p.2 ≤ cut) then
        match acc with
        | none => some p
        | some q => if p.2 < q.2 then some p else some q
      else acc)
    none

/-- Fire every due timer in deadline order: a fired timeout is consumed, and
its callback is `markOffline` at the deadline instant.  Fuel bounds the
number of firings; `timers.length` is always enough since firing never adds
a timer. -/
def fireDue : Nat → Int → Bool → Srv → List Ev → Srv × List Ev
  | 0, _, _, s, log => (s, log)
  | fuel + 1, cut, strict, s, log =>
    match minDue s.timers cut strict with
    | none => (s, log)
    | some (d, dl) =>
      let s₁ : Srv := { s with timers := mapRemove s.timers d }
      let r := markOffline s₁ log d dl
      fireDue fuel cut strict r.1 r.2

/-- Event-loop replay of a time-stamped reading list (times must be fed in
arrival order): timers strictly due before a reading's arrival fire first,
then the reading is handled. -/
def runReadings (T : Int) (s : Srv) (log : List Ev) :
    List (Int × String × Option JVal) → Srv × List Ev
  | [] => (s, log)
  | (t, topic, msg) :: rest =>
    let r₁ := fireDue s.timers.length t true s log
    let r₂ := handleMessage T r₁.1 r₁.2 topic msg t
    runReadings T r₂.1 r₂.2 rest

/-- Observation at instant `q`: every timer due at or before `q` has fired. -/
def observe (s : Srv) (log : List Ev) (q : Int) : Srv × List Ev :=
  fireDue s.timers.length q false s log

/-- Rules snapshot payload:
`Array.from(rulesState.entries()).map(([deviceId, info]) => ({deviceId, ...info}))`. -/
def rulesEntries (rulesState : List (JVal × RInfo)) : List Obj :=
  rulesState.map (fun p =>
    [("deviceId", p.1), ("rules", p.2.rules), ("savedAt", JVal.jnum p.2.savedAt)])

/-- Messages delivered to one subscriber by the `connection` handler, in
order: the device snapshot always, then the rules snapshot only when
`rulesState` is non-empty. -/
def onConnect (s : Srv) : List Ev :=
  [.sensorSnapshot (s.state.map Prod.snd)]
    ++ (if s.rulesState.isEmpty then [] else [.rulesSnapshot (rulesEntries s.rulesState)])

/-- Body of `GET /api/last`: the `devices` array. -/
def apiLast (s : Srv) : List Obj := s.state.map Prod.snd

/-- Acknowledgement delivered to a `control:send` caller. -/
inductive CtrlAck where
  | failure (error : String)
  | success (topic : String) (payload : Obj)
deriving DecidableEq, Repr

/-- Response of `POST /api/control`. -/
inductive HttpResp where
  | badRequest (error : String)
  | badGateway (error : String)
  | ok (topic : String) (payload : Obj)
deriving DecidableEq, Repr

/-- Acknowledgement delivered to a `rules:save` caller. -/
inductive RulesAck where
  | failure (error : String)
  | success (savedAt : Int)
deriving DecidableEq, Repr

/-- Outbound control topic for a device id value (template literal). -/
def controlTopicFor (pfx : String) (deviceIdVal : JVal) : String :=
  pfx ++ "/" ++ jvalToStr deviceIdVal ++ "/control"

/-- Rest pattern `{ deviceId, ...rest } = msg || \x7b\x7d`: every spreadable
entry except the `deviceId` field. -/
def restOf (msg : Option JVal) : Obj :=
  (toSpread (msg.getD .jnull)).filter (fun p => ¬ p.1 = "deviceId")

/-- The `control:send` handler: no publish and an error ack on a falsy
`deviceId`; otherwise one publish of the rest-payload on the device's
control topic, the ack following the publish callback's error argument
(`pubErr`). -/
def controlSend (pfx : String) (msg : Option JVal) (pubErr : Option String) :
    List (String × Obj) × CtrlAck :=
  let deviceId := jsProp msg "deviceId"
  if jsFalsy deviceId then ([], .failure "deviceId required")
  else
    let topic := controlTopicFor pfx (deviceId.getD .jnull)
    let payload := restOf msg
    match pubErr with
    | some e => ([(topic, payload)], .failure e)
    | none => ([(topic, payload)], .success topic payload)

/-- The `POST /api/control` route: HTTP 400 on a falsy `deviceId`, HTTP 502
carrying the cause on a publish error, otherwise 200 with topic and
payload. -/
def httpControl (pfx : String) (body : Option JVal) (pubErr : Option String) :
    List (String × Obj) × HttpResp :=
  let deviceId := jsProp body "deviceId"
  if jsFalsy deviceId then ([], .badRequest "deviceId required")
  else
    let topic := controlTopicFor pfx (deviceId.getD .jnull)
    let payload := restOf body
    match pubErr with
    | some e => ([(topic, payload)], .badGateway e)
    | none => ([(topic, payload)], .ok topic payload)

/-- Validation test of `rules:save`: `!deviceId || !Array.isArray(rules)`. -/
def rulesSaveInvalid (msg : Option JVal) : Bool :=
  jsFalsy (jsProp msg "deviceId") || !(isArr (jsProp msg "rules"))

/-- Result of one `rules:save` request: new server state, caller ack,
broadcasts emitted to all subscribers, and attempted publishes. -/
structure SaveResult where
  srv : Srv
  ack : RulesAck
  broadcasts : List Ev
  publishes : List (String × Obj)
deriving DecidableEq, Repr

/-- The `rules:save` handler: reject invalid requests outright; otherwise
store `{rules, savedAt: now}` under the deviceId value, publish `setRules`,
and only on publish success ack `{ok, savedAt}` and broadcast the rules
snapshot. -/
def rulesSave (pfx : String) (s : Srv) (msg : Option JVal) (now : Int)
    (pubErr : Option String) : SaveResult :=
  if rulesSaveInvalid msg then
    ⟨s, .failure "deviceId dan rules wajib", [], []⟩
  else
    let dv := (jsProp msg "deviceId").getD .jnull
    let rv := (jsProp msg "rules").getD .jnull
    let s₁ : Srv := { s with rulesState := mapSet s.rulesState dv ⟨rv, now⟩ }
    let topic := controlTopicFor pfx dv
    let payload : Obj := [("cmd", .jstr "setRules"), ("rules", rv), ("savedAt", .jnum now)]
    match pubErr with
    | some e => ⟨s₁, .failure e, [], [(topic, payload)]⟩
    | none => ⟨s₁, .success now, [.rulesSnapshot (rulesEntries s₁.rulesState)], [(topic, payload)]⟩

/-- Whether the stored state currently shows the device online. -/
def deviceOnline (s : Srv) (d : String) : Bool :=
  decide ((mapGet s.state d).bind (fun o => objGet o "online") = some (JVal.jbool true))

/-- Whether an event is an offline `device:status` broadcast for `d`. -/
def isOfflineEv (d : String) : Ev → Bool
  | .deviceStatus d₁ online _ => d₁ == d && online == false
  | _ => false

/-- Number of offline broadcasts for `d` in a log. -/
def countOffline (log : List Ev) (d : String) : Nat :=
  (log.filter (isOfflineEv d)).length

/-- Number of silence gaps of length ≥ T between consecutive reading
times. -/
def gapCount (T : Int) : List Int → Nat
  | t₁ :: t₂ :: rest => (if t₁ + T < t₂ then 1 else 0) + gapCount T (t₂ :: rest)
  | _ => 0

/-- Time of the last reading in a list (0 when empty). -/
def lastTimeOf (rs : List (Int × JVal)) : Int :=
  match rs.getLast? with
  | some p => p.1
  | none => 0

/-- Sensor-topic reading items for device `d` from (time, payload) pairs. -/
def sensorItems (d : String) (rs : List (Int × JVal)) :
    List (Int × String × Option JVal) :=
  rs.map (fun p => (p.1, "farm/" ++ d ++ "/sensor", some p.2))


/-- The `markOffline` early-return test: the stored `online` field is
strictly `false`. -/
def alreadyOffline (s : Srv) (d : String) : Bool :=
  decide ((mapGet s.state d).bind (fun o => objGet o "online") = some (JVal.jbool false))

/-- Keys of the server-stamped fields of an enriched reading. -/
def stampKeys : List String := ["deviceId", "serverTs", "online"]

/-- Time of the last reading in a (time, payload) list, `prev` when empty. -/
def endTimeOf (prev : Int) : List (Int × JVal) → Int
  | [] => prev
  | (t, _) :: rest => endTimeOf t rest

/- ### General lemmas about the map model -/

theorem mapGet_mapSet_self {κ α : Type} [DecidableEq κ] (m : List (κ × α)) (k : κ) (v : α) :
    mapGet (mapSet m k v) k = some v := by
  induction m with
  | nil => simp [mapGet, mapSet]
  | cons p rest ih =>
    obtain ⟨k₁, v₁⟩ := p
    by_cases h : k₁ = k
    · simp [mapSet, h, mapGet]
    · simp [mapSet, h, mapGet, ih]

theorem mapGet_mapSet_ne {κ α : Type} [DecidableEq κ] (m : List (κ × α)) {k₁ k : κ} (v : α)
    (h : k₁ ≠ k) : mapGet (mapSet m k₁ v) k = mapGet m k := by
  induction m with
  | nil => simp [mapGet, mapSet, h]
  | cons p rest ih =>
    obtain ⟨k₂, v₂⟩ := p
    by_cases h₂ : k₂ = k₁
    · subst h₂; simp [mapSet, mapGet, h]
    · by_cases h₃ : k₂ = k
      · subst h₃; simp [mapSet, mapGet, h₂]
      · simp [mapSet, mapGet, h₂, h₃, ih]

theorem mapGet_mapRemove_self {κ α : Type} [DecidableEq κ] (m : List (κ × α)) (k : κ) :
    mapGet (mapRemove m k) k = none := by
  induction m with
  | nil => simp [mapGet, mapRemove]
  | cons p rest ih =>
    obtain ⟨k₁, v₁⟩ := p
    by_cases h : k₁ = k
    · simpa [mapRemove, h] using ih
    · simpa [mapRemove, mapGet, h] using ih

theorem mapGet_mapRemove_ne {κ α : Type} [DecidableEq κ] (m : List (κ × α)) {k₁ k : κ}
    (h : k₁ ≠ k) : mapGet (mapRemove m k₁) k = mapGet m k := by
  induction m with
  | nil => simp [mapGet, mapRemove]
  | cons p rest ih =>
    obtain ⟨k₂, v₂⟩ := p
    by_cases h₂ : k₂ = k₁
    · subst h₂; simpa [mapRemove, mapGet, h] using ih
    · by_cases h₃ : k₂ = k
      · subst h₃; simp [mapRemove, mapGet, h₂]
      · simpa [mapRemove, mapGet, h₂, h₃] using ih

theorem isSome_mapGet_mapSet {κ α : Type} [DecidableEq κ] (m : List (κ × α)) (k₁ k : κ)
    (v : α) (h : (mapGet m k).isSome) : (mapGet (mapSet m k₁ v) k).isSome := by
  by_cases hk : k₁ = k
  · subst hk; simp [mapGet_mapSet_self]
  · rwa [mapGet_mapSet_ne m v hk]

theorem mapGet_mem_values {κ α : Type} [DecidableEq κ] (m : List (κ × α)) (k : κ) (v : α)
    (h : mapGet m k = some v) : v ∈ m.map Prod.snd := by
  induction m with
  | nil => simp [mapGet] at h
  | cons p rest ih =>
    obtain ⟨k₁, v₁⟩ := p
    by_cases hk : k₁ = k
    · simp [mapGet, hk] at h
      simp [h]
    · simp only [mapGet, hk, if_false] at h
      simp [ih h]

/- ### Lemmas about objects and enrichment -/

theorem objGet_objSet_self (o : Obj) (k : String) (v : JVal) :
    objGet (objSet o k v) k = some v := mapGet_mapSet_self o k v

theorem objGet_objSet_ne (o : Obj) {k₁ k : String} (v : JVal) (h : k₁ ≠ k) :
    objGet (objSet o k₁ v) k = objGet o k := mapGet_mapSet_ne o v h

theorem objGet_enrich_online (p : JVal) (d : String) (t : Int) :
    objGet (enrich p d t) "online" = some (.jbool true) := objGet_objSet_self _ _ _

theorem objGet_enrich_deviceId (p : JVal) (d : String) (t : Int) :
    objGet (enrich p d t) "deviceId" = some (.jstr d) := by
  unfold enrich
  rw [objGet_objSet_ne _ _ (by decide), objGet_objSet_ne _ _ (by decide),
    objGet_objSet_self]

theorem objGet_enrich_serverTs (p : JVal) (d : String) (t : Int) :
    objGet (enrich p d t) "serverTs" = some (.jnum t) := by
  unfold enrich
  rw [objGet_objSet_ne _ _ (by decide), objGet_objSet_self]

theorem objGet_enrich_other (p : JVal) (d : String) (t : Int) {k : String}
    (h₁ : k ≠ "deviceId") (h₂ : k ≠ "serverTs") (h₃ : k ≠ "online") :
    objGet (enrich p d t) k = objGet (toSpread p) k := by
  unfold enrich
  rw [objGet_objSet_ne _ _ (Ne.symm h₃), objGet_objSet_ne _ _ (Ne.symm h₂),
    objGet_objSet_ne _ _ (Ne.symm h₁)]

/- ### Lemmas about broadcast counting -/

theorem countOffline_append (a b : List Ev) (d : String) :
    countOffline (a ++ b) d = countOffline a d + countOffline b d := by
  simp [countOffline, List.filter_append]

theorem countOffline_offline_status (d : String) (t : Int) :
    countOffline [.deviceStatus d false t] d = 1 := by
  simp [countOffline, isOfflineEv]

theorem countOffline_reading_evs (o : Obj) (d₁ d : String) (t : Int) :
    countOffline [.sensorData o, .deviceStatus d₁ true t] d = 0 := by
  simp [countOffline, isOfflineEv]

/- ### Behaviour of markOffline -/

theorem markOffline_of_alreadyOffline (s : Srv) (log : List Ev) (d : String) (t : Int)
    (h : alreadyOffline s d = true) : markOffline s log d t = (s, log) := by
  unfold markOffline
  rw [if_pos (of_decide_eq_true h)]

theorem markOffline_not_alreadyOffline (s : Srv) (log : List Ev) (d : String) (t : Int)
    (h : alreadyOffline s d = false) :
    (markOffline s log d t).2 = log ++ [.deviceStatus d false t] ∧
    alreadyOffline (markOffline s log d t).1 d = true ∧
    (markOffline s log d t).1.timers = mapRemove s.timers d := by
  unfold markOffline
  rw [if_neg (of_decide_eq_false h)]
  refine ⟨rfl, ?_, rfl⟩
  unfold alreadyOffline
  apply decide_eq_true
  rw [mapGet_mapSet_self]
  show objGet _ "online" = some (JVal.jbool false)
  rw [objGet_objSet_ne _ _ (by decide), objGet_objSet_self]

/-- C2 counterexample: for an unknown device (no stored state), `markOffline`
is not a no-op — it creates an offline state entry and emits an offline
`device:status` broadcast. -/
theorem markOffline_unknown_not_noop :
    (markOffline initSrv [] "node-9" 5).1.state
        = [("node-9", [("deviceId", .jstr "node-9"), ("online", .jbool false),
                       ("serverTs", .jnum 5)])] ∧
    (markOffline initSrv [] "node-9" 5).2 = [.deviceStatus "node-9" false 5] :=
  ⟨by decide, by decide⟩

/-- C2 (amended): `markOffline` is a no-op (no state change, no broadcast)
exactly when the device's stored state has `online = false`; for an unknown
or online device it broadcasts offline once, and calling it twice in a row
emits exactly one offline broadcast unless the device was already offline
(then none). -/
theorem markOffline_twice_one_broadcast (s : Srv) (log : List Ev) (d : String) (t₁ t₂ : Int) :
    (alreadyOffline s d = true → markOffline s log d t₁ = (s, log)) ∧
    (alreadyOffline s d = false →
        (markOffline s log d t₁).2 = log ++ [.deviceStatus d false t₁]) ∧
    countOffline (markOffline (markOffline s log d t₁).1 (markOffline s log d t₁).2 d t₂).2 d
      = countOffline log d + (if alreadyOffline s d = true then 0 else 1) := by
  refine ⟨markOffline_of_alreadyOffline s log d t₁, fun h => (markOffline_not_alreadyOffline s log d t₁ h).1, ?_⟩
  by_cases h : alreadyOffline s d = true
  · rw [markOffline_of_alreadyOffline s log d t₁ h, markOffline_of_alreadyOffline s log d t₂ h]
    simp [h]
  · have h₀ : alreadyOffline s d = false := by simpa using h
    obtain ⟨hlog, hoff, _⟩ := markOffline_not_alreadyOffline s log d t₁ h₀
    rw [markOffline_of_alreadyOffline _ _ d t₂ hoff, hlog, countOffline_append]
    simp [h₀, countOffline_offline_status]

/-- Closed witness for `markOffline_twice_one_broadcast`, at an online device
and an arbitrary empty log. -/
theorem markOffline_twice_one_broadcast_witness :
    countOffline
        (markOffline
          (markOffline ⟨[("node-1", [("online", .jbool true)])], [], []⟩ [] "node-1" 3).1
          (markOffline ⟨[("node-1", [("online", .jbool true)])], [], []⟩ [] "node-1" 3).2
          "node-1" 4).2 "node-1"
      = countOffline [] "node-1"
        + (if alreadyOffline ⟨[("node-1", [("online", .jbool true)])], [], []⟩ "node-1" = true then 0 else 1) :=
  (markOffline_twice_one_broadcast ⟨[("node-1", [("online", .jbool true)])], [], []⟩ [] "node-1" 3 4).2.2

/- ### Malformed topics and bad payloads -/

/-- C4 counterexample: a topic with no second path segment is not rejected —
the reading is stored (under the fallback id) and broadcasts are emitted. -/
theorem malformed_topic_processed :
    (handleMessage 15000 initSrv [] "farm" (some (.jobj [("t", .jnum 1)])) 7).1.state ≠ [] ∧
    (handleMessage 15000 initSrv [] "farm" (some (.jobj [("t", .jnum 1)])) 7).2 ≠ [] :=
  ⟨by decide, by decide⟩

/-- C4 (amended): a message whose topic has no (or an empty) second path
segment is processed normally with the fallback device id `unknown`: its
enriched payload is stored under `unknown` and both broadcasts are
emitted. -/
theorem malformed_topic_falls_back (T : Int) (s : Srv) (log : List Ev) (topic : String)
    (p : JVal) (now : Int)
    (h : (jsSplitSlash topic.data).get? 1 = none ∨ (jsSplitSlash topic.data).get? 1 = some "") :
    mapGet (handleMessage T s log topic (some p) now).1.state "unknown"
        = some (enrich p "unknown" now) ∧
    (handleMessage T s log topic (some p) now).2
        = log ++ [.sensorData (enrich p "unknown" now), .deviceStatus "unknown" true now] := by
  have hd : topicDeviceId topic = "unknown" := by
    unfold topicDeviceId
    rcases h with h | h <;> rw [h] <;> simp
  constructor
  · show mapGet (mapSet s.state (topicDeviceId topic) (enrich p (topicDeviceId topic) now))
        "unknown" = _
    rw [hd, mapGet_mapSet_self]
  · show log ++ [.sensorData (enrich p (topicDeviceId topic) now),
        .deviceStatus (topicDeviceId topic) true now] = _
    rw [hd]

/-- Closed witness for `malformed_topic_falls_back` at topic `farm`. -/
theorem malformed_topic_falls_back_witness :
    mapGet (handleMessage 15000 initSrv [] "farm" (some (.jobj [("t", .jnum 1)])) 7).1.state
        "unknown" = some (enrich (.jobj [("t", .jnum 1)]) "unknown" 7) ∧
    (handleMessage 15000 initSrv [] "farm" (some (.jobj [("t", .jnum 1)])) 7).2
        = [] ++ [.sensorData (enrich (.jobj [("t", .jnum 1)]) "unknown" 7),
                 .deviceStatus "unknown" true 7] :=
  malformed_topic_falls_back 15000 initSrv [] "farm" (.jobj [("t", .jnum 1)]) 7 (by decide)

/-- C5 counterexample: an empty-object payload is not dropped — it changes
the server state and emits broadcasts. -/
theorem empty_object_processed :
    (handleMessage 15000 initSrv [] "farm/node-1/sensor" (some (.jobj [])) 7).1 ≠ initSrv ∧
    (handleMessage 15000 initSrv [] "farm/node-1/sensor" (some (.jobj [])) 7).2 ≠ [] :=
  ⟨by decide, by decide⟩

/-- C5 (amended): a payload on which parsing fails is dropped — no state
change, no broadcast, no crash; but an empty-object payload is accepted and
processed as a normal reading whose stored state has only the three
server-stamped fields. -/
theorem parse_failure_dropped (T : Int) (s : Srv) (log : List Ev) (topic : String) (now : Int) :
    handleMessage T s log topic none now = (s, log) ∧
    mapGet (handleMessage T s log topic (some (.jobj [])) now).1.state (topicDeviceId topic)
        = some [("deviceId", .jstr (topicDeviceId topic)), ("serverTs", .jnum now),
                ("online", .jbool true)] ∧
    (handleMessage T s log topic (some (.jobj [])) now).2
        = log ++ [.sensorData [("deviceId", .jstr (topicDeviceId topic)),
                               ("serverTs", .jnum now), ("online", .jbool true)],
                  .deviceStatus (topicDeviceId topic) true now] := by
  refine ⟨rfl, ?_, rfl⟩
  show mapGet (mapSet s.state (topicDeviceId topic) (enrich (.jobj []) (topicDeviceId topic) now))
      (topicDeviceId topic) = _
  rw [mapGet_mapSet_self]
  rfl

/- ### Control command routing (C9) -/

/-- C9: every control command with a truthy `deviceId` publishes the payload
minus the `deviceId` field on `<pfx>/<deviceId>/control` and the caller gets
a success reply carrying topic and payload; a falsy `deviceId` is rejected
(error ack / HTTP 400) with no publish; a publish failure yields an error
ack / HTTP 502 carrying the cause. -/
theorem control_send_routes (pfx : String) (msg body : Option JVal) (e : String)
    (pubErr : Option String) :
    (jsFalsy (jsProp msg "deviceId") = false →
        controlSend pfx msg none
          = ([(controlTopicFor pfx ((jsProp msg "deviceId").getD .jnull), restOf msg)],
             .success (controlTopicFor pfx ((jsProp msg "deviceId").getD .jnull)) (restOf msg)) ∧
        controlSend pfx msg (some e)
          = ([(controlTopicFor pfx ((jsProp msg "deviceId").getD .jnull), restOf msg)],
             .failure e)) ∧
    (jsFalsy (jsProp msg "deviceId") = true →
        controlSend pfx msg pubErr = ([], .failure "deviceId required")) ∧
    objGet (restOf msg) "deviceId" = none ∧
    (∀ k, k ≠ "deviceId" → objGet (restOf msg) k = objGet (toSpread (msg.getD .jnull)) k) ∧
    (jsFalsy (jsProp body "deviceId") = false →
        httpControl pfx body none
          = ([(controlTopicFor pfx ((jsProp body "deviceId").getD .jnull), restOf body)],
             .ok (controlTopicFor pfx ((jsProp body "deviceId").getD .jnull)) (restOf body)) ∧
        httpControl pfx body (some e)
          = ([(controlTopicFor pfx ((jsProp body "deviceId").getD .jnull), restOf body)],
             .badGateway e)) ∧
    (jsFalsy (jsProp body "deviceId") = true →
        httpControl pfx body pubErr = ([], .badRequest "deviceId required")) := by
  refine ⟨fun h => ⟨by simp [controlSend, h], by simp [controlSend, h]⟩,
    fun h => by simp [controlSend, h],
    mapGet_mapRemove_self _ _,
    fun k hk => mapGet_mapRemove_ne _ (Ne.symm hk),
    fun h => ⟨by simp [httpControl, h], by simp [httpControl, h]⟩,
    fun h => by simp [httpControl, h]⟩

/-- Closed witness for `control_send_routes`: the spec's `setPump` scenario,
plus rejection of a body with no `deviceId`. -/
theorem control_send_routes_witness :
    controlSend "farm"
        (some (.jobj [("deviceId", .jstr "node-1"), ("cmd", .jstr "setPump"),
                      ("pump", .jbool true)])) none
      = ([("farm/node-1/control", [("cmd", .jstr "setPump"), ("pump", .jbool true)])],
         .success "farm/node-1/control" [("cmd", .jstr "setPump"), ("pump", .jbool true)]) ∧
    httpControl "farm" (some (.jobj [("x", .jnum 1)])) none
      = ([], .badRequest "deviceId required") := by
  have h := control_send_routes "farm"
    (some (.jobj [("deviceId", .jstr "node-1"), ("cmd", .jstr "setPump"),
                  ("pump", .jbool true)]))
    (some (.jobj [("x", .jnum 1)])) "boom" none
  exact ⟨by rw [(h.1 (by decide)).1]; decide, h.2.2.2.2.2 (by decide)⟩

/- ### Rules saving (C7, C8, C10) -/

/-- C7: `rules:save` fails with the validation ack (no state change, no
publish, no broadcast) exactly when `deviceId` is falsy or `rules` is not an
array; otherwise it replaces the device's rule set wholesale with
`savedAt = now` (whatever the individual rules contain), publishes
`setRules`, and on publish success acks `ok` with `savedAt` and broadcasts
the rules snapshot. -/
theorem rules_save_contract (pfx : String) (s : Srv) (msg : Option JVal) (now : Int)
    (pubErr : Option String) :
    ((jsFalsy (jsProp msg "deviceId") = true ∨ isArr (jsProp msg "rules") = false) →
        rulesSave pfx s msg now pubErr
          = ⟨s, .failure "deviceId dan rules wajib", [], []⟩) ∧
    (jsFalsy (jsProp msg "deviceId") = false → isArr (jsProp msg "rules") = true →
        (rulesSave pfx s msg now pubErr).srv.rulesState
            = mapSet s.rulesState ((jsProp msg "deviceId").getD .jnull)
                ⟨(jsProp msg "rules").getD .jnull, now⟩ ∧
        mapGet (rulesSave pfx s msg now pubErr).srv.rulesState
            ((jsProp msg "deviceId").getD .jnull)
            = some ⟨(jsProp msg "rules").getD .jnull, now⟩ ∧
        (rulesSave pfx s msg now pubErr).publishes
            = [(controlTopicFor pfx ((jsProp msg "deviceId").getD .jnull),
                [("cmd", .jstr "setRules"), ("rules", (jsProp msg "rules").getD .jnull),
                 ("savedAt", .jnum now)])] ∧
        (pubErr = none →
            (rulesSave pfx s msg now pubErr).ack = .success now ∧
            (rulesSave pfx s msg now pubErr).broadcasts
              = [.rulesSnapshot (rulesEntries
                  (mapSet s.rulesState ((jsProp msg "deviceId").getD .jnull)
                    ⟨(jsProp msg "rules").getD .jnull, now⟩))])) := by
  constructor
  · intro h
    have hinv : rulesSaveInvalid msg = true := by
      rcases h with h | h <;> simp [rulesSaveInvalid, h]
    simp [rulesSave, hinv]
  · intro h₁ h₂
    have hinv : rulesSaveInvalid msg = false := by simp [rulesSaveInvalid, h₁, h₂]
    cases pubErr with
    | some e => simp [rulesSave, hinv, mapGet_mapSet_self]
    | none => simp [rulesSave, hinv, mapGet_mapSet_self]

/-- Closed witness for `rules_save_contract`: the spec's concrete scenario
for node-1 succeeds, and a request without `deviceId` is rejected. -/
theorem rules_save_contract_witness :
    rulesSave "farm" initSrv (some (.jobj [("rules", .jarr [])])) 5 none
      = ⟨initSrv, .failure "deviceId dan rules wajib", [], []⟩ ∧
    (rulesSave "farm" initSrv
        (some (.jobj [("deviceId", .jstr "node-1"),
          ("rules", .jarr [.jobj [("id", .jstr "r1"), ("enabled", .jbool true),
            ("metric", .jstr "soil"), ("comparator", .jstr "lte"),
            ("threshold", .jnum 35), ("action", .jstr "pumpOn")]])])) 42 none).ack
      = .success 42 := by
  refine ⟨(rules_save_contract "farm" initSrv (some (.jobj [("rules", .jarr [])])) 5 none).1
      (Or.inl (by decide)), ?_⟩
  exact (((rules_save_contract "farm" initSrv
      (some (.jobj [("deviceId", .jstr "node-1"),
        ("rules", .jarr [.jobj [("id", .jstr "r1"), ("enabled", .jbool true),
          ("metric", .jstr "soil"), ("comparator", .jstr "lte"),
          ("threshold", .jnum 35), ("action", .jstr "pumpOn")]])])) 42 none).2
      (by decide) (by decide)).2.2.2 rfl).1

/-- C10: the stored rule set is updated before the publish callback runs, so
a failed publish leaves the new rules (and new `savedAt`) in place while the
caller gets a failure ack and no rules snapshot is broadcast. -/
theorem rules_save_publish_failure_keeps_rules (pfx : String) (s : Srv) (msg : Option JVal)
    (now : Int) (e : String)
    (h₁ : jsFalsy (jsProp msg "deviceId") = false) (h₂ : isArr (jsProp msg "rules") = true) :
    (rulesSave pfx s msg now (some e)).ack = .failure e ∧
    (rulesSave pfx s msg now (some e)).publishes
        = [(controlTopicFor pfx ((jsProp msg "deviceId").getD .jnull),
            [("cmd", .jstr "setRules"), ("rules", (jsProp msg "rules").getD .jnull),
             ("savedAt", .jnum now)])] ∧
    mapGet (rulesSave pfx s msg now (some e)).srv.rulesState
        ((jsProp msg "deviceId").getD .jnull)
        = some ⟨(jsProp msg "rules").getD .jnull, now⟩ ∧
    (rulesSave pfx s msg now (some e)).broadcasts = [] := by
  have hinv : rulesSaveInvalid msg = false := by simp [rulesSaveInvalid, h₁, h₂]
  simp [rulesSave, hinv, mapGet_mapSet_self]

/-- Closed witness for `rules_save_publish_failure_keeps_rules`. -/
theorem rules_save_publish_failure_keeps_rules_witness :
    (rulesSave "farm" initSrv
        (some (.jobj [("deviceId", .jstr "node-1"), ("rules", .jarr [])])) 9 (some "boom")).ack
      = .failure "boom" ∧
    mapGet (rulesSave "farm" initSrv
        (some (.jobj [("deviceId", .jstr "node-1"), ("rules", .jarr [])])) 9
        (some "boom")).srv.rulesState (.jstr "node-1")
      = some ⟨.jarr [], 9⟩ ∧
    (rulesSave "farm" initSrv
        (some (.jobj [("deviceId", .jstr "node-1"), ("rules", .jarr [])])) 9
        (some "boom")).broadcasts = [] := by
  have h := rules_save_publish_failure_keeps_rules "farm" initSrv
    (some (.jobj [("deviceId", .jstr "node-1"), ("rules", .jarr [])])) 9 "boom"
    (by decide) (by decide)
  exact ⟨h.1, h.2.2.1, h.2.2.2⟩

/-- C8 counterexample: two successive completed saves for node-1 made while
the clock reads the same millisecond store equal `savedAt` values — the
later one is not strictly greater. -/
theorem savedAt_equal_on_same_tick :
    (mapGet (rulesSave "farm" initSrv
        (some (.jobj [("deviceId", .jstr "node-1"), ("rules", .jarr [])])) 100
        none).srv.rulesState (.jstr "node-1")).map RInfo.savedAt = some 100 ∧
    (mapGet (rulesSave "farm"
        (rulesSave "farm" initSrv
          (some (.jobj [("deviceId", .jstr "node-1"), ("rules", .jarr [])])) 100 none).srv
        (some (.jobj [("deviceId", .jstr "node-1"), ("rules", .jarr [])])) 100
        none).srv.rulesState (.jstr "node-1")).map RInfo.savedAt = some 100 ∧
    ¬ (100 : Int) < 100 := by
  refine ⟨by decide, by decide, by decide⟩

/-- C8 (amended): `savedAt` equals the clock at save time, so across two
successive completed saves for the same device it is strictly greater
exactly when the clock advanced between the saves (non-decreasing clock
gives non-decreasing `savedAt`). -/
theorem savedAt_follows_clock (pfx : String) (s : Srv) (msg₁ msg₂ : Option JVal)
    (now₁ now₂ : Int) (e₁ e₂ : Option String) (d : JVal)
    (h₁ : rulesSaveInvalid msg₁ = false) (h₂ : rulesSaveInvalid msg₂ = false)
    (hd₁ : (jsProp msg₁ "deviceId").getD .jnull = d)
    (hd₂ : (jsProp msg₂ "deviceId").getD .jnull = d) :
    (mapGet (rulesSave pfx s msg₁ now₁ e₁).srv.rulesState d).map RInfo.savedAt = some now₁ ∧
    (mapGet (rulesSave pfx (rulesSave pfx s msg₁ now₁ e₁).srv msg₂ now₂ e₂).srv.rulesState
        d).map RInfo.savedAt = some now₂ ∧
    (now₁ < now₂ → ∀ i₁ i₂ : RInfo,
        mapGet (rulesSave pfx s msg₁ now₁ e₁).srv.rulesState d = some i₁ →
        mapGet (rulesSave pfx (rulesSave pfx s msg₁ now₁ e₁).srv msg₂ now₂ e₂).srv.rulesState d
          = some i₂ →
        i₁.savedAt < i₂.savedAt) := by
  have g₁ : mapGet (rulesSave pfx s msg₁ now₁ e₁).srv.rulesState d
      = some ⟨(jsProp msg₁ "rules").getD .jnull, now₁⟩ := by
    cases e₁ with
    | some e => simp [rulesSave, h₁, hd₁, mapGet_mapSet_self]
    | none => simp [rulesSave, h₁, hd₁, mapGet_mapSet_self]
  have g₂ : mapGet (rulesSave pfx (rulesSave pfx s msg₁ now₁ e₁).srv msg₂ now₂ e₂).srv.rulesState d
      = some ⟨(jsProp msg₂ "rules").getD .jnull, now₂⟩ := by
    cases e₂ with
    | some e => simp [rulesSave, h₂, hd₂, mapGet_mapSet_self]
    | none => simp [rulesSave, h₂, hd₂, mapGet_mapSet_self]
  refine ⟨by rw [g₁]; rfl, by rw [g₂]; rfl, ?_⟩
  intro hlt i₁ i₂ hi₁ hi₂
  rw [g₁] at hi₁
  rw [g₂] at hi₂
  cases hi₁
  cases hi₂
  simpa using hlt

/-- Closed witness for `savedAt_follows_clock` with an advancing clock. -/
theorem savedAt_follows_clock_witness :
    (mapGet (rulesSave "farm" initSrv
        (some (.jobj [("deviceId", .jstr "node-1"), ("rules", .jarr [])])) 100
        none).srv.rulesState (.jstr "node-1")).map RInfo.savedAt = some 100 ∧
    (mapGet (rulesSave "farm"
        (rulesSave "farm" initSrv
          (some (.jobj [("deviceId", .jstr "node-1"), ("rules", .jarr [])])) 100 none).srv
        (some (.jobj [("deviceId", .jstr "node-1"), ("rules", .jarr [])])) 101
        none).srv.rulesState (.jstr "node-1")).map RInfo.savedAt = some 101 := by
  have h := savedAt_follows_clock "farm" initSrv
    (some (.jobj [("deviceId", .jstr "node-1"), ("rules", .jarr [])]))
    (some (.jobj [("deviceId", .jstr "node-1"), ("rules", .jarr [])]))
    100 101 none none (.jstr "node-1") (by decide) (by decide) (by decide) (by decide)
  exact ⟨h.1, h.2.1⟩

/- ### Device-state persistence across the event loop -/

theorem state_isSome_markOffline (s : Srv) (log : List Ev) (d₁ d : String) (t : Int)
    (h : (mapGet s.state d).isSome = true) :
    (mapGet (markOffline s log d₁ t).1.state d).isSome = true := by
  simp only [markOffline]
  by_cases hc : (mapGet s.state d₁).bind (fun o => objGet o "online") = some (JVal.jbool false)
  · simp only [if_pos hc]
    exact h
  · simp only [if_neg hc]
    exact isSome_mapGet_mapSet _ _ _ _ h

theorem state_isSome_fireDue (fuel : Nat) (cut : Int) (strict : Bool) :
    ∀ (s : Srv) (log : List Ev) (d : String),
      (mapGet s.state d).isSome = true →
      (mapGet (fireDue fuel cut strict s log).1.state d).isSome = true := by
  induction fuel with
  | zero => intro s log d h; exact h
  | succ fuel ih =>
    intro s log d h
    show (mapGet (fireDue (fuel + 1) cut strict s log).1.state d).isSome = true
    rw [fireDue]
    cases hm : minDue s.timers cut strict with
    | none => exact h
    | some p =>
      obtain ⟨d₁, dl⟩ := p
      exact ih _ _ d (state_isSome_markOffline _ _ _ _ _ h)

theorem state_isSome_handleMessage (T : Int) (s : Srv) (log : List Ev) (topic : String)
    (msg : Option JVal) (now : Int) (d : String)
    (h : (mapGet s.state d).isSome = true) :
    (mapGet (handleMessage T s log topic msg now).1.state d).isSome = true := by
  cases msg with
  | none => exact h
  | some p => exact isSome_mapGet_mapSet _ _ _ _ h

theorem state_isSome_runReadings (T : Int) :
    ∀ (items : List (Int × String × Option JVal)) (s : Srv) (log : List Ev) (d : String),
      (mapGet s.state d).isSome = true →
      (mapGet (runReadings T s log items).1.state d).isSome = true := by
  intro items
  induction items with
  | nil => intro s log d h; exact h
  | cons it rest ih =>
    intro s log d h
    obtain ⟨t, topic, msg⟩ := it
    exact ih _ _ d (state_isSome_handleMessage T _ _ _ _ _ d
      (state_isSome_fireDue _ _ _ _ _ d h))

/- ### Subscriber join (C6) -/

/-- C6: a joining subscriber synchronously receives first the full device
snapshot (one entry per known device, each with its currently stored state)
and then the rules snapshot exactly when at least one device has saved
rules; devices present in the registry are never dropped by later event
processing. -/
theorem subscriber_join_snapshot (s : Srv) :
    (onConnect s).head? = some (.sensorSnapshot (apiLast s)) ∧
    (∀ d o, mapGet s.state d = some o → o ∈ apiLast s) ∧
    (apiLast s).length = s.state.length ∧
    (Ev.rulesSnapshot (rulesEntries s.rulesState) ∈ onConnect s ↔ s.rulesState ≠ []) ∧
    (∀ (T : Int) (log : List Ev) (items : List (Int × String × Option JVal)) (d : String),
        (mapGet s.state d).isSome = true →
        (mapGet (runReadings T s log items).1.state d).isSome = true) := by
  refine ⟨rfl, fun d o h => mapGet_mem_values _ _ _ h, by simp [apiLast], ?_,
    fun T log items d h => state_isSome_runReadings T items s log d h⟩
  constructor
  · intro hmem
    cases hs : s.rulesState with
    | nil => simp [onConnect, hs] at hmem
    | cons p rest => simp [hs]
  · intro hne
    have hs : s.rulesState.isEmpty = false := by
      cases hsr : s.rulesState with
      | nil => exact absurd hsr hne
      | cons p rest => rfl
    simp [onConnect, hs]

/-- Closed witness for `subscriber_join_snapshot` at a server with three
reported devices and one saved rule set. -/
theorem subscriber_join_snapshot_witness :
    (onConnect ⟨[("node-1", [("t", .jnum 1)]), ("node-2", [("t", .jnum 2)]),
                 ("node-3", [("t", .jnum 3)])],
                [(.jstr "node-1", ⟨.jarr [], 7⟩)], []⟩).head?
      = some (.sensorSnapshot (apiLast ⟨[("node-1", [("t", .jnum 1)]),
          ("node-2", [("t", .jnum 2)]), ("node-3", [("t", .jnum 3)])],
          [(.jstr "node-1", ⟨.jarr [], 7⟩)], []⟩)) ∧
    [("t", JVal.jnum 2)] ∈ apiLast ⟨[("node-1", [("t", .jnum 1)]),
        ("node-2", [("t", .jnum 2)]), ("node-3", [("t", .jnum 3)])],
        [(.jstr "node-1", ⟨.jarr [], 7⟩)], []⟩ ∧
    Ev.rulesSnapshot (rulesEntries [(.jstr "node-1", ⟨.jarr [], 7⟩)])
      ∈ onConnect ⟨[("node-1", [("t", .jnum 1)]), ("node-2", [("t", .jnum 2)]),
          ("node-3", [("t", .jnum 3)])], [(.jstr "node-1", ⟨.jarr [], 7⟩)], []⟩ := by
  have h := subscriber_join_snapshot ⟨[("node-1", [("t", .jnum 1)]),
    ("node-2", [("t", .jnum 2)]), ("node-3", [("t", .jnum 3)])],
    [(.jstr "node-1", ⟨.jarr [], 7⟩)], []⟩
  exact ⟨h.1, h.2.1 "node-2" _ (by decide), h.2.2.2.1.mpr (by decide)⟩

/- ### Last-write-wins device state (C1) -/

theorem topicDeviceId_sensor (d : String)
    (hsplit : jsSplitSlash ("farm/" ++ d ++ "/sensor").data = ["farm", d, "sensor"])
    (hd : d ≠ "") : topicDeviceId ("farm/" ++ d ++ "/sensor") = d := by
  unfold topicDeviceId
  rw [hsplit]
  simp [hd]

theorem runReadings_last_state (T : Int) (d : String)
    (hsd : topicDeviceId ("farm/" ++ d ++ "/sensor") = d) :
    ∀ (rs : List (Int × JVal)) (s : Srv) (log : List Ev) (tl : Int) (pl : JVal),
      rs.getLast? = some (tl, pl) →
      mapGet (runReadings T s log (sensorItems d rs)).1.state d = some (enrich pl d tl) := by
  intro rs
  induction rs with
  | nil => intro s log tl pl h; simp at h
  | cons it rest ih =>
    intro s log tl pl h
    obtain ⟨t, p⟩ := it
    cases rest with
    | nil =>
      have h₁ : (t, p) = (tl, pl) := by simpa using h
      simp only [sensorItems, List.map, runReadings, handleMessage]
      rw [hsd, mapGet_mapSet_self, (Prod.mk.inj h₁).1, (Prod.mk.inj h₁).2]
    | cons it₂ rest₂ =>
      have hlast : (it₂ :: rest₂).getLast? = some (tl, pl) := by
        rwa [List.getLast?_cons_cons] at h
      show mapGet (runReadings T _ _ (sensorItems d ((t, p) :: it₂ :: rest₂))).1.state d = _
      simp only [sensorItems, List.map, runReadings]
      exact ih _ _ tl pl hlast

/-- C1: after replaying any sequence of readings for a device, the stored
state is built from exactly the last reading's payload fields — no merge
with earlier readings — plus `deviceId`, `online = true` and the server
receive timestamp; the `GET /api/last` snapshot contains exactly that
object for the device. -/
theorem last_reading_replaces_state (T : Int) (d : String) (rs : List (Int × JVal))
    (tl : Int) (pl : JVal)
    (hsplit : jsSplitSlash ("farm/" ++ d ++ "/sensor").data = ["farm", d, "sensor"])
    (hd : d ≠ "") (hlast : rs.getLast? = some (tl, pl)) :
    mapGet (runReadings T initSrv [] (sensorItems d rs)).1.state d = some (enrich pl d tl) ∧
    objGet (enrich pl d tl) "deviceId" = some (.jstr d) ∧
    objGet (enrich pl d tl) "online" = some (.jbool true) ∧
    objGet (enrich pl d tl) "serverTs" = some (.jnum tl) ∧
    (∀ k, k ∉ stampKeys → objGet (enrich pl d tl) k = objGet (toSpread pl) k) ∧
    enrich pl d tl ∈ apiLast (runReadings T initSrv [] (sensorItems d rs)).1 := by
  have hsd := topicDeviceId_sensor d hsplit hd
  have hstate := runReadings_last_state T d hsd rs initSrv [] tl pl hlast
  refine ⟨hstate, objGet_enrich_deviceId pl d tl, objGet_enrich_online pl d tl,
    objGet_enrich_serverTs pl d tl, ?_, mapGet_mem_values _ _ _ hstate⟩
  intro k hk
  simp only [stampKeys, List.mem_cons, List.mem_singleton] at hk
  push_neg at hk
  exact objGet_enrich_other pl d tl hk.1 hk.2.1 hk.2.2.1

/-- Closed witness for `last_reading_replaces_state`: two readings for
node-1; the stored state keeps only the second reading's field. -/
theorem last_reading_replaces_state_witness :
    mapGet (runReadings 15000 initSrv []
        (sensorItems "node-1" [(1, .jobj [("temperature", .jnum 30)]),
                               (5, .jobj [("soil", .jnum 40)])])).1.state "node-1"
      = some (enrich (.jobj [("soil", .jnum 40)]) "node-1" 5) ∧
    objGet (enrich (.jobj [("soil", .jnum 40)]) "node-1" 5) "temperature" = none := by
  have h := last_reading_replaces_state 15000 "node-1"
    [(1, .jobj [("temperature", .jnum 30)]), (5, .jobj [("soil", .jnum 40)])]
    5 (.jobj [("soil", .jnum 40)]) (by decide) (by decide) (by decide)
  refine ⟨h.1, ?_⟩
  rw [h.2.2.2.2.1 "temperature" (by decide)]
  decide

/- ### Liveness machinery (C3) -/

theorem minDue_singleton (d : String) (dl cut : Int) (strict : Bool) :
    minDue [(d, dl)] cut strict
      = if (if strict then dl < cut else dl ≤ cut) then some (d, dl) else none := rfl

theorem mapRemove_singleton_self {α : Type} (d : String) (v : α) :
    mapRemove [(d, v)] d = ([] : List (String × α)) := by
  simp [mapRemove]

theorem mapSet_singleton_self {α : Type} (d : String) (v w : α) :
    mapSet [(d, v)] d w = [(d, w)] := by
  simp [mapSet]

theorem markOffline_single_online (d : String) (obj : Obj) (stR : List (JVal × RInfo))
    (tms : List (String × Int)) (log : List Ev) (tm : Int)
    (h : objGet obj "online" = some (.jbool true)) :
    markOffline ⟨[(d, obj)], stR, tms⟩ log d tm
      = (⟨[(d, objSet (objSet (objSet obj "deviceId" (.jstr d)) "online" (.jbool false))
              "serverTs" (.jnum tm))], stR, mapRemove tms d⟩,
         log ++ [.deviceStatus d false tm]) := by
  have hget : mapGet [(d, obj)] d = some obj := by simp [mapGet]
  simp only [markOffline, hget]
  rw [if_neg (by simp [h])]
  simp [mapSet]

theorem objGet_offlinePayload_online (base : Obj) (d : String) (tm : Int) :
    objGet (objSet (objSet (objSet base "deviceId" (.jstr d)) "online" (.jbool false))
        "serverTs" (.jnum tm)) "online" = some (.jbool false) := by
  rw [objGet_objSet_ne _ _ (by decide), objGet_objSet_self]

theorem fireDue_one (cut : Int) (strict : Bool) (d : String) (dl : Int)
    (st : List (String × Obj)) (stR : List (JVal × RInfo)) (log : List Ev) :
    fireDue 1 cut strict ⟨st, stR, [(d, dl)]⟩ log
      = if (if strict then dl < cut else dl ≤ cut)
        then markOffline ⟨st, stR, []⟩ log d dl
        else (⟨st, stR, [(d, dl)]⟩, log) := by
  show fireDue (0 + 1) cut strict ⟨st, stR, [(d, dl)]⟩ log = _
  by_cases h : if strict then dl < cut else dl ≤ cut
  · rw [fireDue, minDue_singleton, if_pos h, if_pos h]
    show (let s₁ : Srv := ⟨st, stR, mapRemove [(d, dl)] d⟩
          let r := markOffline s₁ log d dl
          fireDue 0 cut strict r.1 r.2) = markOffline ⟨st, stR, []⟩ log d dl
    rw [mapRemove_singleton_self]
    rfl
  · rw [fireDue, minDue_singleton, if_neg h, if_neg h]

theorem fireDue_one_strict (cut : Int) (d : String) (dl : Int) (st : List (String × Obj))
    (stR : List (JVal × RInfo)) (log : List Ev) :
    fireDue 1 cut true ⟨st, stR, [(d, dl)]⟩ log
      = if dl < cut then markOffline ⟨st, stR, []⟩ log d dl
        else (⟨st, stR, [(d, dl)]⟩, log) := by
  rw [fireDue_one]
  rfl

theorem fireDue_one_lax (cut : Int) (d : String) (dl : Int) (st : List (String × Obj))
    (stR : List (JVal × RInfo)) (log : List Ev) :
    fireDue 1 cut false ⟨st, stR, [(d, dl)]⟩ log
      = if dl ≤ cut then markOffline ⟨st, stR, []⟩ log d dl
        else (⟨st, stR, [(d, dl)]⟩, log) := by
  rw [fireDue_one]
  rfl

theorem run_step (T : Int) (d : String)
    (hsd : topicDeviceId ("farm/" ++ d ++ "/sensor") = d)
    (stR : List (JVal × RInfo)) (obj : Obj) (prev t : Int) (p : JVal) (log : List Ev)
    (rest : List (Int × JVal))
    (hon : objGet obj "online" = some (.jbool true)) :
    runReadings T ⟨[(d, obj)], stR, [(d, prev + T)]⟩ log (sensorItems d ((t, p) :: rest))
      = runReadings T ⟨[(d, enrich p d t)], stR, [(d, t + T)]⟩
          ((if prev + T < t then log ++ [.deviceStatus d false (prev + T)] else log)
            ++ [.sensorData (enrich p d t), .deviceStatus d true t])
          (sensorItems d rest) := by
  have h₁ : fireDue 1 t true ⟨[(d, obj)], stR, [(d, prev + T)]⟩ log
      = if prev + T < t
        then (⟨[(d, objSet (objSet (objSet obj "deviceId" (.jstr d)) "online" (.jbool false))
                    "serverTs" (.jnum (prev + T)))], stR, []⟩,
              log ++ [.deviceStatus d false (prev + T)])
        else (⟨[(d, obj)], stR, [(d, prev + T)]⟩, log) := by
    rw [fireDue_one_strict]
    by_cases hlt : prev + T < t
    · rw [if_pos hlt, if_pos hlt, markOffline_single_online d obj stR [] log (prev + T) hon]
      rfl
    · rw [if_neg hlt, if_neg hlt]
  show runReadings T
      (handleMessage T (fireDue 1 t true ⟨[(d, obj)], stR, [(d, prev + T)]⟩ log).1
        (fireDue 1 t true ⟨[(d, obj)], stR, [(d, prev + T)]⟩ log).2
        ("farm/" ++ d ++ "/sensor") (some p) t).1
      (handleMessage T (fireDue 1 t true ⟨[(d, obj)], stR, [(d, prev + T)]⟩ log).1
        (fireDue 1 t true ⟨[(d, obj)], stR, [(d, prev + T)]⟩ log).2
        ("farm/" ++ d ++ "/sensor") (some p) t).2
      (sensorItems d rest) = _
  rw [h₁]
  by_cases hlt : prev + T < t
  · rw [if_pos hlt, if_pos hlt]
    simp only [handleMessage]
    rw [hsd, mapSet_singleton_self]
    rfl
  · rw [if_neg hlt, if_neg hlt]
    simp only [handleMessage]
    rw [hsd, mapSet_singleton_self]
    show runReadings T ⟨[(d, enrich p d t)], stR, mapSet [(d, prev + T)] d (t + T)⟩ _ _ = _
    rw [mapSet_singleton_self]

theorem observe_single (d : String) (obj₁ : Obj) (stR : List (JVal × RInfo)) (dl q : Int)
    (log : List Ev) (hon : objGet obj₁ "online" = some (.jbool true)) :
    observe ⟨[(d, obj₁)], stR, [(d, dl)]⟩ log q
      = if dl ≤ q
        then (⟨[(d, objSet (objSet (objSet obj₁ "deviceId" (.jstr d)) "online" (.jbool false))
                    "serverTs" (.jnum dl))], stR, []⟩,
              log ++ [.deviceStatus d false dl])
        else (⟨[(d, obj₁)], stR, [(d, dl)]⟩, log) := by
  show fireDue 1 q false ⟨[(d, obj₁)], stR, [(d, dl)]⟩ log = _
  rw [fireDue_one_lax]
  by_cases h : dl ≤ q
  · rw [if_pos h, if_pos h, markOffline_single_online d obj₁ stR [] log dl hon]
    rfl
  · rw [if_neg h, if_neg h]

theorem endTimeOf_eq_lastTimeOf : ∀ (rest : List (Int × JVal)) (t : Int) (p : JVal),
    endTimeOf t rest = lastTimeOf ((t, p) :: rest)
  | [], t, p => by simp [endTimeOf, lastTimeOf]
  | (t₂, p₂) :: rest₂, t, p => by
    show endTimeOf t₂ rest₂ = lastTimeOf ((t, p) :: (t₂, p₂) :: rest₂)
    rw [endTimeOf_eq_lastTimeOf rest₂ t₂ p₂]
    simp [lastTimeOf, List.getLast?_cons_cons]

theorem run_armed (T : Int) (d : String)
    (hsd : topicDeviceId ("farm/" ++ d ++ "/sensor") = d) :
    ∀ (rs : List (Int × JVal)) (stR : List (JVal × RInfo)) (obj : Obj) (prev : Int)
      (log : List Ev),
      objGet obj "online" = some (.jbool true) →
      ∃ obj₁ : Obj,
        (runReadings T ⟨[(d, obj)], stR, [(d, prev + T)]⟩ log (sensorItems d rs)).1
            = ⟨[(d, obj₁)], stR, [(d, endTimeOf prev rs + T)]⟩ ∧
        objGet obj₁ "online" = some (.jbool true) ∧
        countOffline
            (runReadings T ⟨[(d, obj)], stR, [(d, prev + T)]⟩ log (sensorItems d rs)).2 d
          = countOffline log d + gapCount T (prev :: rs.map Prod.fst) := by
  intro rs
  induction rs with
  | nil =>
    intro stR obj prev log hon
    refine ⟨obj, rfl, hon, ?_⟩
    simp [sensorItems, runReadings, gapCount, endTimeOf]
  | cons it rest ih =>
    intro stR obj prev log hon
    obtain ⟨t, p⟩ := it
    rw [run_step T d hsd stR obj prev t p log rest hon]
    obtain ⟨obj₁, hfin, hon₁, hcnt⟩ :=
      ih stR (enrich p d t) t
        ((if prev + T < t then log ++ [.deviceStatus d false (prev + T)] else log)
          ++ [.sensorData (enrich p d t), .deviceStatus d true t])
        (objGet_enrich_online p d t)
    refine ⟨obj₁, by rw [hfin]; rfl, hon₁, ?_⟩
    rw [hcnt, countOffline_append, countOffline_reading_evs]
    by_cases hlt : prev + T < t
    · rw [if_pos hlt, countOffline_append, countOffline_offline_status]
      show _ = countOffline log d + gapCount T (prev :: t :: rest.map Prod.fst)
      rw [gapCount, if_pos hlt]
      omega
    · rw [if_neg hlt]
      show _ = countOffline log d + gapCount T (prev :: t :: rest.map Prod.fst)
      rw [gapCount, if_neg hlt]
      omega

/-- C3: with liveness timeout `T`, every reading re-arms the device's single
one-shot timer to expire `T` after the reading; replaying any in-order
reading sequence and then observing at `q` shows the device online exactly
when less than `T` elapsed since the last reading, and the offline
`device:status` broadcast is emitted exactly once per silence gap of length
at least `T` (including the trailing one when `q` is past the deadline). -/
theorem liveness_window (T : Int) (d : String) (rs : List (Int × JVal)) (q : Int)
    (_hT : 0 < T)
    (hsplit : jsSplitSlash ("farm/" ++ d ++ "/sensor").data = ["farm", d, "sensor"])
    (hd : d ≠ "")
    (hchain : List.Chain' (· < ·) (rs.map Prod.fst))
    (hne : rs ≠ [])
    (hq : lastTimeOf rs ≤ q) :
    (runReadings T initSrv [] (sensorItems d rs)).1.timers = [(d, lastTimeOf rs + T)] ∧
    deviceOnline (observe (runReadings T initSrv [] (sensorItems d rs)).1
        (runReadings T initSrv [] (sensorItems d rs)).2 q).1 d
      = decide (q < lastTimeOf rs + T) ∧
    countOffline (observe (runReadings T initSrv [] (sensorItems d rs)).1
        (runReadings T initSrv [] (sensorItems d rs)).2 q).2 d
      = gapCount T (rs.map Prod.fst) + (if lastTimeOf rs + T ≤ q then 1 else 0) := by
  have hsd := topicDeviceId_sensor d hsplit hd
  obtain ⟨⟨t₁, p₁⟩, rest, rfl⟩ : ∃ x xs, rs = x :: xs := by
    cases rs with
    | nil => exact absurd rfl hne
    | cons x xs => exact ⟨x, xs, rfl⟩
  have hinit : runReadings T initSrv [] (sensorItems d ((t₁, p₁) :: rest))
      = runReadings T ⟨[(d, enrich p₁ d t₁)], [], [(d, t₁ + T)]⟩
          [.sensorData (enrich p₁ d t₁), .deviceStatus d true t₁] (sensorItems d rest) := by
    show runReadings T
        (handleMessage T initSrv [] ("farm/" ++ d ++ "/sensor") (some p₁) t₁).1
        (handleMessage T initSrv [] ("farm/" ++ d ++ "/sensor") (some p₁) t₁).2
        (sensorItems d rest) = _
    simp only [handleMessage]
    rw [hsd]
    rfl
  obtain ⟨obj₁, hfin, hon₁, hcnt⟩ := run_armed T d hsd rest [] (enrich p₁ d t₁) t₁
      [.sensorData (enrich p₁ d t₁), .deviceStatus d true t₁] (objGet_enrich_online p₁ d t₁)
  have hend : endTimeOf t₁ rest = lastTimeOf ((t₁, p₁) :: rest) :=
    endTimeOf_eq_lastTimeOf rest t₁ p₁
  rw [hinit]
  refine ⟨?_, ?_, ?_⟩
  · simp only [hfin]
    rw [hend]
  · rw [hfin, observe_single d obj₁ [] (endTimeOf t₁ rest + T) q _ hon₁]
    by_cases hdl : endTimeOf t₁ rest + T ≤ q
    · rw [if_pos hdl]
      have hnlt : ¬ (q < lastTimeOf ((t₁, p₁) :: rest) + T) := by
        rw [← hend]; omega
      simp [deviceOnline, mapGet, objGet_offlinePayload_online, hnlt]
    · rw [if_neg hdl]
      have hlt : q < lastTimeOf ((t₁, p₁) :: rest) + T := by
        rw [← hend]; omega
      simp [deviceOnline, mapGet, hon₁, hlt]
  · rw [hfin, observe_single d obj₁ [] (endTimeOf t₁ rest + T) q _ hon₁]
    by_cases hdl : endTimeOf t₁ rest + T ≤ q
    · rw [if_pos hdl]
      show countOffline (_ ++ [Ev.deviceStatus d false (endTimeOf t₁ rest + T)]) d = _
      have hmap : ((t₁, p₁) :: rest).map Prod.fst = t₁ :: rest.map Prod.fst := rfl
      rw [countOffline_append, countOffline_offline_status, hcnt, countOffline_reading_evs,
        hmap, if_pos (by rw [← hend]; exact hdl)]
      omega
    · rw [if_neg hdl]
      show countOffline _ d = _
      have hmap : ((t₁, p₁) :: rest).map Prod.fst = t₁ :: rest.map Prod.fst := rfl
      rw [hcnt, countOffline_reading_evs, hmap,
        if_neg (by rw [← hend]; exact hdl)]
      omega

/-- Closed witness for `liveness_window`: with `T = 15000`, a device read at
0 and 14999 is still online at 15001, while a device read only at 0 has been
broadcast offline exactly once by 16000. -/
theorem liveness_window_witness :
    deviceOnline (observe
        (runReadings 15000 initSrv []
          (sensorItems "node-1" [(0, .jobj []), (14999, .jobj [])])).1
        (runReadings 15000 initSrv []
          (sensorItems "node-1" [(0, .jobj []), (14999, .jobj [])])).2 15001).1 "node-1"
      = true ∧
    countOffline (observe
        (runReadings 15000 initSrv [] (sensorItems "node-2" [(0, .jobj [])])).1
        (runReadings 15000 initSrv [] (sensorItems "node-2" [(0, .jobj [])])).2 16000).2
        "node-2"
      = 1 := by
  have h₁ := liveness_window 15000 "node-1" [(0, .jobj []), (14999, .jobj [])] 15001
    (by decide) (by decide) (by decide)
    (by simp [List.chain'_cons, List.chain'_singleton]) (by decide) (by decide)
  have h₂ := liveness_window 15000 "node-2" [(0, .jobj [])] 16000
    (by decide) (by decide) (by decide)
    (by simp [List.chain'_singleton]) (by decide) (by decide)
  constructor
  · rw [h₁.2.1]
    decide
  · rw [h₂.2.2]
    decide
